import Mathlib

/-!
Shallow embedding of the openbk_firmware_checker integration
(custom_components/openbk_firmware_checker: const.py, coordinator.py,
update.py), together with theorems settling the frozen claims about it.

Strings from the Python source are modelled as Lean String values; the
string scanning primitives of Python (startswith, endswith, replace,
split, strip, the two regular expressions of coordinator.py) are given
executable character-list implementations below.
-/

namespace OpenBK

/-! ### Character-list string primitives -/

/-- Python s.startswith(p), on character lists via List.isPrefixOf. -/
def strStarts (p s : String) : Bool :=
  p.toList.isPrefixOf s.toList

/-- Python s.endswith(p). -/
def strEnds (p s : String) : Bool :=
  p.toList.isSuffixOf s.toList

/-- Python substring membership test, p in s, on character lists. -/
def containsSub (pat : List Char) : List Char → Bool
  | [] => pat.isEmpty
  | c :: cs => pat.isPrefixOf (c :: cs) || containsSub pat cs

/-- Splits off the maximal leading run of decimal digits. -/
def takeDigits : List Char → List Char × List Char
  | [] => ([], [])
  | c :: cs =>
    if c.isDigit then
      let p := takeDigits cs
      (c :: p.1, p.2)
    else ([], c :: cs)

/-! ### The version regular expressions of coordinator.py

coordinator.py applies re.search with pattern underscore, then three
dot-separated digit groups, then a literal dot-rbl, and extracts the
digit groups. Because each digit-plus item is followed in the pattern
by a character that can never be a digit, the regex backtracking is
vacuous and the match at a given start position is exactly a maximal
digit run at each group.
-/

/-- Matches the pattern tail after the leading underscore has been
consumed: three maximal digit runs separated by dots, followed by the
literal characters dot r b l somewhere after (re.search is unanchored
at the end, the literal follows immediately). Returns the captured
version group. -/
def matchVersionTail (l : List Char) : Option (List Char) :=
  let p1 := takeDigits l
  if p1.1.isEmpty then none
  else
    match p1.2 with
    | '.' :: r2 =>
      let p2 := takeDigits r2
      if p2.1.isEmpty then none
      else
        match p2.2 with
        | '.' :: r4 =>
          let p3 := takeDigits r4
          if p3.1.isEmpty then none
          else if ['.', 'r', 'b', 'l'].isPrefixOf p3.2 then
            some (p1.1 ++ '.' :: p2.1 ++ '.' :: p3.1)
          else none
        | _ => none
    | _ => none

/-- re.search for the coordinator version pattern: try every position,
leftmost full match wins; the pattern starts with an underscore so only
underscore positions are candidates. Returns the captured group. -/
def searchVersion : List Char → Option (List Char)
  | [] => none
  | c :: cs =>
    if c = '_' then
      match matchVersionTail cs with
      | some v => some v
      | none => searchVersion cs
    else searchVersion cs

/-- Exactly three dot-separated nonempty digit runs and nothing else,
the anchored core of the spec pattern. -/
def isVersionCore (l : List Char) : Bool :=
  let p1 := takeDigits l
  if p1.1.isEmpty then false
  else
    match p1.2 with
    | '.' :: r2 =>
      let p2 := takeDigits r2
      if p2.1.isEmpty then false
      else
        match p2.2 with
        | '.' :: r4 =>
          let p3 := takeDigits r4
          !p3.1.isEmpty && p3.2.isEmpty
        | _ => false
    | _ => false

/-- Drops a known leading part, if present. -/
def stripLead (p l : List Char) : Option (List Char) :=
  if p.isPrefixOf l then some (l.drop p.length) else none

/-- The anchored filename pattern of the spec, caret prefix underscore
then three digit groups then dot-rbl dollar: the name decomposes as
prefix, underscore, an exact version core, and the rbl extension. -/
def anchoredName (pfx name : String) : Bool :=
  match stripLead (pfx.toList ++ ['_']) name.toList with
  | none => false
  | some rest =>
    match stripLead (['.', 'r', 'b', 'l'].reverse) rest.reverse with
    | none => false
    | some core => isVersionCore core.reverse

/-! ### const.py -/

/-- const.py lines 11-17. Ordered table, dict insertion order. -/
def PLATFORM_FIRMWARE_MAP : List (String × String) :=
  [("BK7231T", "OpenBK7231T"),
   ("BK7231N", "OpenBK7231N"),
   ("BK7231M", "OpenBK7231M"),
   ("BK7231U", "OpenBK7231U"),
   ("BK7238", "OpenBK7238")]

/-- const.py line 31, with its source comment: 1 hour in seconds. -/
def DEFAULT_UPDATE_INTERVAL : Nat := 3600

/-! ### coordinator.py: release data and asset resolution -/

/-- One entry of the assets array of a GitHub release. -/
structure Asset where
  name : String
  browser_download_url : String
  size : Nat
deriving DecidableEq

/-- The fields of a release used by the coordinator. -/
structure GithubRelease where
  tag_name : String
  assets : List Asset
deriving DecidableEq

/-- One value of coordinator.firmware_versions, coordinator.py 145-150. -/
structure FirmwareInfo where
  version : String
  download_url : String
  filename : String
  size : Nat
deriving DecidableEq

/-- The filename test of coordinator.py lines 113-116: startswith of the
firmware family part plus underscore, endswith dot-rbl, and the version
regex finds a match, whose group is the build version. -/
def matchAsset (pfx : String) (a : Asset) : Option (Asset × String) :=
  if strStarts (pfx ++ "_") a.name && strEnds ".rbl" a.name then
    (searchVersion a.name.toList).map (fun v => (a, String.mk v))
  else none

/-- The inner asset loop of coordinator.py lines 111-151: first asset
passing all the filename conditions wins, the loop breaks after it. -/
def findAssetWithVersion (pfx : String) : List Asset → Option (Asset × String)
  | [] => none
  | a :: rest =>
    match matchAsset pfx a with
    | some r => some r
    | none => findAssetWithVersion pfx rest

/-- resolveAsset of the spec: look up the firmware family of the
platform key and scan the asset list of the snapshot. -/
def resolveAsset (assets : List Asset) (platform : String) : Option (Asset × String) :=
  match PLATFORM_FIRMWARE_MAP.lookup platform with
  | none => none
  | some pfx => findAssetWithVersion pfx assets

/-! ### coordinator.py: CDN redirect resolution, lines 117-143 -/

/-- Python s.replace(pat, rep, 1): the leftmost occurrence of pat is
replaced, everything else is copied. -/
def replaceFirstList (pat rep : List Char) : List Char → List Char
  | [] => []
  | c :: cs =>
    if pat.isPrefixOf (c :: cs) then rep ++ (c :: cs).drop pat.length
    else c :: replaceFirstList pat rep cs

/-- The https to http downgrade, s.replace with count 1 in the source. -/
def replaceHttpsOnce (s : String) : String :=
  String.mk (replaceFirstList "https://".toList "http://".toList s.toList)

/-- Outcome of the HEAD request against the browser download URL that
is handled locally by the per-asset code on lines 119-143: either a
response carrying a status code and the Location header value (empty
string when the header is absent, headers.get default), or an
exception caught by the inner except Exception handler of line 136.
The escaping case, where the 30 second ceiling of line 74 expires
during the HEAD (the cancellation is a BaseException that passes
through the inner except Exception, becomes TimeoutError at the
timeout context exit and aborts the whole asset loop), is modelled one
level up, by the head function returning none. -/
inductive HeadOutcome
  | ok (code : Nat) (location : String)
  | raised
deriving DecidableEq

/-- coordinator.py line 124 status membership test. -/
def isRedirectCode (c : Nat) : Bool :=
  c = 301 || c = 302 || c = 303 || c = 307 || c = 308

/-- The host marker tested on line 127. -/
def objectsHost : String := "objects.githubusercontent.com"

/-- coordinator.py lines 117-143: resolve the effective download URL
from the original browser URL and the HEAD outcome. On a redirect whose
Location contains the GitHub objects host the URL is downgraded to
http; any other redirect target is recorded verbatim; a non-redirect
response keeps the original URL verbatim; an exception falls back to
the original URL, downgraded when it starts with https. -/
def resolveDownloadUrl (download_url : String) (h : HeadOutcome) : String :=
  match h with
  | HeadOutcome.ok code loc =>
    if isRedirectCode code then
      if loc = "" then download_url
      else if containsSub objectsHost.toList loc.toList then replaceHttpsOnce loc
      else loc
    else download_url
  | HeadOutcome.raised =>
    if strStarts "https://" download_url then replaceHttpsOnce download_url
    else download_url

/-! ### coordinator.py: the shared refresh, lines 61-181 -/

/-- The coordinator state mutated by the refresh: the cached release,
the cached per-platform firmware map, and the ever-succeeded flag. -/
structure CoordinatorState where
  latest_release : GithubRelease
  firmware_versions : List (String × FirmwareInfo)
  last_fetch_success : Bool
deriving DecidableEq

/-- How the upstream GET and body parse concluded: a response with a
status code and (for the 200 path) a fully parsed release body, an
aiohttp.ClientError transport failure, or any other exception raised
before the parse on line 102 completed (a timeout expiring during the
GET or the json read, a parse failure), which the source catches with
its generic handler before any state was mutated. A timeout expiring
after the 200 parse, inside the asset loop, is a different path: the
assignment of latest_release on line 103 has already happened; that
case is modelled below through the head function. -/
inductive FetchOutcome
  | response (code : Nat) (release : GithubRelease)
  | transportError
  | unexpectedError

/-- The asset loop of lines 110-151 over the ordered platform table:
for each entry, the first matching asset, with its extracted version
and its resolved download URL. The head argument gives the HEAD
outcome for each browser URL; none means the 30 second ceiling expired
during that HEAD, aborting the whole loop (result none). The partial
local dict built before the abort is discarded, because
self.firmware_versions is only assigned on line 153 after the loop
completes. -/
def processAssetsGo (assets : List Asset) (head : String → Option HeadOutcome) :
    List (String × String) → Option (List (String × FirmwareInfo))
  | [] => some []
  | e :: es =>
    match findAssetWithVersion e.2 assets with
    | none => processAssetsGo assets head es
    | some av =>
      match head av.1.browser_download_url with
      | none => none
      | some h =>
        (processAssetsGo assets head es).map (fun rest =>
          (e.1,
           { version := av.2,
             download_url := resolveDownloadUrl av.1.browser_download_url h,
             filename := av.1.name,
             size := av.1.size }) :: rest)

def processAssets (assets : List Asset) (head : String → Option HeadOutcome) :
    Option (List (String × FirmwareInfo)) :=
  processAssetsGo assets head PLATFORM_FIRMWARE_MAP

/-- The shared check-cache-or-raise step. All three failure handlers of
the source (the 403 branch on lines 88-95, the ClientError handler on
lines 168-174 and the generic handler on lines 175-181) perform exactly
this: return the cached data when a fetch has ever succeeded, otherwise
raise UpdateFailed. -/
def cachedOrFail (st : CoordinatorState) :
    Except Unit (GithubRelease × List (String × FirmwareInfo)) :=
  if st.last_fetch_success then Except.ok (st.latest_release, st.firmware_versions)
  else Except.error ()

/-- coordinator._async_update_data as a state transformer. The raise
UpdateFailed on lines 98-100 for a non-200 non-403 status happens
inside the try block, so it is caught by the generic except Exception
handler on line 175, which again returns cached data when available:
that path therefore also reduces to cachedOrFail; it runs before any
mutation. On the 200 path the source mutates self.latest_release on
line 103, before the asset loop runs; only when the loop completes are
self.firmware_versions and the success flag assigned (lines 153-154).
When the 30 second ceiling expires during a HEAD inside the loop
(processAssets none), the escaping TimeoutError reaches the generic
handler of line 175 with latest_release already mutated, so a warm
cache then yields the freshly parsed release paired with the stale
firmware map, and the mutation survives in the state. -/
def refresh (st : CoordinatorState) (outcome : FetchOutcome)
    (head : String → Option HeadOutcome) :
    CoordinatorState × Except Unit (GithubRelease × List (String × FirmwareInfo)) :=
  match outcome with
  | FetchOutcome.response code release =>
    if code = 403 then (st, cachedOrFail st)
    else if code = 200 then
      let st1 : CoordinatorState := { st with latest_release := release }
      match processAssets release.assets head with
      | some versions =>
        ({ st1 with firmware_versions := versions, last_fetch_success := true },
         Except.ok (release, versions))
      | none => (st1, cachedOrFail st1)
    else (st, cachedOrFail st)
  | FetchOutcome.transportError => (st, cachedOrFail st)
  | FetchOutcome.unexpectedError => (st, cachedOrFail st)

/-- coordinator.py line 46: the configured interval is multiplied by
3600, the docstring of the constructor calling the value hours. -/
def interval_seconds (update_interval : Nat) : Nat :=
  update_interval * 3600

/-! ### update.py: the per-device record -/

/-- The mutable per-device state of OpenBKUpdateEntity, fields set in
the constructor on lines 133-144. -/
structure DeviceRecord where
  device_id : String
  platform : String
  current_version : String
  installing : Bool
  install_progress : Nat
  target_version : Option String
  previous_version : Option String
  backup_available : Bool
deriving DecidableEq

/-- OpenBKUpdateEntity construction, update.py lines 122-144. -/
def initRecord (device_id platform current_version : String) : DeviceRecord :=
  { device_id := device_id
    platform := platform
    current_version := current_version
    installing := false
    install_progress := 0
    target_version := none
    previous_version := none
    backup_available := false }

/-- Python truthiness of an optional string: None and the empty string
are falsy. -/
def optTruthy : Option String → Bool
  | none => false
  | some s => !(s = "")

/-- The triple of assignments clearing the install state, appearing on
lines 309-311, 320-322, 485-487, 633-635 and 782-784 of update.py. -/
def clearInstallState (r : DeviceRecord) : DeviceRecord :=
  { r with installing := false, install_progress := 0, target_version := none }

/-- What update_current_version logs: nothing, the success info line of
line 303, or the mismatch warning of line 314. -/
inductive UpdateLog
  | noLog
  | installSuccess
  | versionMismatch
deriving DecidableEq

/-- update.py lines 294-324. The whole body is guarded by the version
actually differing from the recorded current version; an equal report
is ignored entirely. -/
def update_current_version (r : DeviceRecord) (version : String) :
    DeviceRecord × UpdateLog :=
  if r.current_version = version then (r, UpdateLog.noLog)
  else
    let r1 : DeviceRecord := { r with current_version := version }
    if r1.installing && optTruthy r1.target_version && (r1.target_version = some version) then
      (clearInstallState r1, UpdateLog.installSuccess)
    else if r1.installing then
      (clearInstallState r1, UpdateLog.versionMismatch)
    else (r1, UpdateLog.noLog)

/-! ### update.py: the three install workflows -/

/-- Whether one fallible step of the try body raised. -/
inductive StepResult
  | success
  | raised
deriving DecidableEq

/-- The fallible steps of the shared try body: the HTTP download
(a non-200 status or transport failure raises, lines 389-410), the
executor file write (lines 416-420) and the MQTT publish (462-468). -/
structure InstallSteps where
  download : StepResult
  write : StepResult
  publish : StepResult
deriving DecidableEq

/-- How a workflow call concluded for its caller: an early logged
return with no state change, normal completion, or a re-raised
exception. -/
inductive InstallResult
  | noOp
  | completed
  | raised
deriving DecidableEq

/-- Entering the Installing state: lines 374-376, 538-540, 687-689. -/
def installEnter (r : DeviceRecord) (target : String) : DeviceRecord :=
  { r with installing := true, install_progress := 0, target_version := some target }

/-- The shared try body (lines 379-481 of async_install and its twins
in the rollback and specific-version workflows): progress is set to 5
at download start, 45 before the file write, 50 before computing the
serving URL, 60 after the publish. Returns the record at exit and
whether the body ran to completion; on a raise the returned record is
the state at the raise point, the except clause of the caller applies
the reset. The chunk-level progress updates during the download (lines
399-408) only affect transiently published states between suspension
points and never survive the body, so they are not tracked. -/
def runTryBody (r : DeviceRecord) (steps : InstallSteps) : DeviceRecord × Bool :=
  let r1 : DeviceRecord := { r with install_progress := 5 }
  if steps.download = StepResult.raised then (r1, false)
  else
    let r2 : DeviceRecord := { r1 with install_progress := 45 }
    if steps.write = StepResult.raised then (r2, false)
    else
      let r3 : DeviceRecord := { r2 with install_progress := 50 }
      if steps.publish = StepResult.raised then (r3, false)
      else ({ r3 with install_progress := 60 }, true)

/-- The except clause shared by the three workflows (lines 483-489,
631-637, 780-786): clear the install state and re-raise. -/
def finishWorkflow (rb : DeviceRecord × Bool) : DeviceRecord × InstallResult :=
  if rb.2 then (rb.1, InstallResult.completed)
  else (clearInstallState rb.1, InstallResult.raised)

/-- The backup capture of async_install, lines 348-372: when a current
version is recorded, previous_version and backup_available are
overwritten before the Installing state is entered. prevFound is the
result of the release-history lookup of the current version (lines
358-361). -/
def installBackupPhase (r : DeviceRecord) (prevFound : Bool) : DeviceRecord :=
  if r.current_version = "" then r
  else { r with previous_version := some r.current_version, backup_available := prevFound }

/-- async_install, update.py lines 326-489. fw is the coordinator data
for the platform of the device (none when the platform is absent from
the shared map); the guard on line 335 also rejects empty fields. -/
def async_install (r : DeviceRecord) (fw : Option FirmwareInfo)
    (prevFound : Bool) (steps : InstallSteps) : DeviceRecord × InstallResult :=
  match fw with
  | none => (r, InstallResult.noOp)
  | some fi =>
    if fi.download_url = "" || fi.filename = "" || fi.version = "" then
      (r, InstallResult.noOp)
    else
      finishWorkflow (runTryBody (installEnter (installBackupPhase r prevFound) fi.version) steps)

/-- async_rollback_firmware, update.py lines 491-637. findPrev is the
release-history lookup result for the previous version (lines 520-522). -/
def async_rollback_firmware (r : DeviceRecord) (findPrev : Option FirmwareInfo)
    (steps : InstallSteps) : DeviceRecord × InstallResult :=
  match r.previous_version with
  | none => (r, InstallResult.noOp)
  | some pv =>
    if pv = "" then (r, InstallResult.noOp)
    else if r.backup_available = false then (r, InstallResult.noOp)
    else
      match findPrev with
      | none => (r, InstallResult.noOp)
      | some fi =>
        if fi.download_url = "" || fi.filename = "" then (r, InstallResult.noOp)
        else finishWorkflow (runTryBody (installEnter r pv) steps)

/-- async_install_specific_version, update.py lines 639-786. findVer is
the release-history lookup for the requested version; the backup
capture on lines 673-685 additionally requires the current version to
differ from the requested one. -/
def async_install_specific_version (r : DeviceRecord) (version : String)
    (findVer : Option FirmwareInfo) (prevFound : Bool) (steps : InstallSteps) :
    DeviceRecord × InstallResult :=
  match findVer with
  | none => (r, InstallResult.noOp)
  | some fi =>
    if fi.download_url = "" || fi.filename = "" then (r, InstallResult.noOp)
    else
      let r1 : DeviceRecord :=
        if !(r.current_version = "") && !(r.current_version = version) then
          { r with previous_version := some r.current_version, backup_available := prevFound }
        else r
      finishWorkflow (runTryBody (installEnter r1 version) steps)

/-! ### update.py: the MQTT status ingest, lines 45-104 -/

/-- Python topic.split with a slash separator: every occurrence splits,
empty segments are kept. -/
def splitSlash : List Char → List (List Char)
  | [] => [[]]
  | c :: cs =>
    match splitSlash cs with
    | [] => [[c]]
    | h :: t => if c = '/' then [] :: h :: t else (c :: h) :: t

/-- Python str.strip: drop leading and trailing whitespace. -/
def stripWs (l : List Char) : List Char :=
  ((l.dropWhile Char.isWhitespace).reverse.dropWhile Char.isWhitespace).reverse

/-- Python str.split with no separator: split on whitespace runs and
drop empty tokens. The accumulator holds the current token reversed. -/
def splitWsAux : List Char → List Char → List (List Char)
  | [], acc => if acc.isEmpty then [] else [acc.reverse]
  | c :: cs, acc =>
    if c.isWhitespace then
      if acc.isEmpty then splitWsAux cs [] else acc.reverse :: splitWsAux cs []
    else splitWsAux cs (c :: acc)

def splitWs (l : List Char) : List (List Char) := splitWsAux l []

/-- The six characters of the OpenBK family label. -/
def openBK : List Char := "OpenBK".toList

/-- Python parts0.replace with the OpenBK pattern and an empty
replacement: every non-overlapping occurrence is removed, scanning left
to right. -/
def removeOpenBK : List Char → List Char
  | 'O' :: 'p' :: 'e' :: 'n' :: 'B' :: 'K' :: rest => removeOpenBK rest
  | c :: cs => c :: removeOpenBK cs
  | [] => []

/-- The parsed content of one build status message. -/
structure BuildParse where
  device_id : String
  platform : String
  version : String
deriving DecidableEq

/-- The parsing part of mqtt_message_received, update.py lines 51-78:
the topic must split into exactly two segments with the second equal to
build; the payload is stripped, must be nonempty and must split into at
least two whitespace tokens; the platform is BK prepended to the first
token with every OpenBK occurrence removed; the version is the second
token verbatim. -/
def mqttParseBuild (topic payload : String) : Option BuildParse :=
  match splitSlash topic.toList with
  | [did, seg1] =>
    if seg1 = "build".toList then
      let body := stripWs payload.toList
      if body = [] then none
      else
        match splitWs body with
        | p0 :: p1 :: _ =>
          some { device_id := String.mk did
                 platform := String.mk ('B' :: 'K' :: removeOpenBK p0)
                 version := String.mk p1 }
        | _ => none
    else none
  | _ => none

/-- The registry effect of mqtt_message_received, lines 80-101: an
unseen unique id creates a record from the parse, a seen one routes the
version to update_current_version. -/
def mqtt_message_received (registry : List (String × DeviceRecord))
    (topic payload : String) : List (String × DeviceRecord) :=
  match mqttParseBuild topic payload with
  | none => registry
  | some b =>
    let uid := "openbk_firmware_checker_" ++ b.device_id
    match registry.lookup uid with
    | none => (uid, initRecord b.device_id b.platform b.version) :: registry
    | some r =>
      registry.map (fun e =>
        if e.1 = uid then (e.1, (update_current_version r b.version).1) else e)

/-! ## Helper lemmas shared by the claim theorems -/

/-- A list is a Boolean prefix of itself followed by anything. -/
theorem isPrefixOf_append_self (l₁ l₂ : List Char) :
    l₁.isPrefixOf (l₁ ++ l₂) = true := by
  rw [List.isPrefixOf_iff_prefix]
  exact List.prefix_append l₁ l₂

/-- Replacing a leading occurrence of a nonempty pattern. -/
theorem replaceFirstList_append (c : Char) (cs rep l : List Char) :
    replaceFirstList (c :: cs) rep ((c :: cs) ++ l) = rep ++ l := by
  have hp : (c :: cs).isPrefixOf (c :: (cs ++ l)) = true := by
    rw [← List.cons_append]
    exact isPrefixOf_append_self (c :: cs) l
  rw [List.cons_append, replaceFirstList, if_pos hp, ← List.cons_append, List.drop_left]

/-- Replacing the leftmost https occurrence in a string that starts
with https yields a string starting with http. -/
theorem replaceHttps_of_https {s : String} (h : strStarts "https://" s = true) :
    strStarts "http://" (replaceHttpsOnce s) = true := by
  unfold strStarts at h ⊢
  rw [List.isPrefixOf_iff_prefix] at h
  obtain ⟨rest, hrest⟩ := h
  unfold replaceHttpsOnce
  rw [← hrest]
  rw [show ("https://".toList : List Char) = 'h' :: "ttps://".toList from rfl]
  rw [replaceFirstList_append 'h' "ttps://".toList "http://".toList rest]
  rw [show (String.mk ("http://".toList ++ rest)).toList = "http://".toList ++ rest from rfl]
  exact isPrefixOf_append_self "http://".toList rest

/-- Unfolding matchAsset on a hit: the asset is returned unchanged and
its name passes the three filename conditions, the version being the
captured regex group. -/
theorem matchAsset_some {pfx : String} {x a : Asset} {ver : String}
    (h : matchAsset pfx x = some (a, ver)) :
    x = a ∧ strStarts (pfx ++ "_") a.name = true ∧ strEnds ".rbl" a.name = true ∧
      searchVersion a.name.toList = some ver.toList := by
  unfold matchAsset at h
  by_cases hcond : (strStarts (pfx ++ "_") x.name && strEnds ".rbl" x.name) = true
  · rw [if_pos hcond] at h
    cases hs : searchVersion x.name.toList with
    | none => rw [hs] at h; exact absurd h (by simp)
    | some v =>
      rw [hs] at h
      simp only [Option.map] at h
      injection h with h2
      injection h2 with hxa hv
      rw [Bool.and_eq_true] at hcond
      subst hxa
      refine ⟨rfl, hcond.1, hcond.2, ?_⟩
      rw [← hv]
      exact hs
  · rw [if_neg hcond] at h
    exact absurd h (by simp)

/-- The first-match structure of the asset scan: a returned pair is a
hit of matchAsset on the returned asset itself. -/
theorem findAsset_hit {pfx : String} :
    ∀ {assets : List Asset} {a : Asset} {ver : String},
      findAssetWithVersion pfx assets = some (a, ver) →
      matchAsset pfx a = some (a, ver) := by
  intro assets
  induction assets with
  | nil => intro a ver h; exact absurd h (by simp [findAssetWithVersion])
  | cons x rest ih =>
    intro a ver h
    rw [findAssetWithVersion] at h
    cases hm : matchAsset pfx x with
    | none => rw [hm] at h; exact ih h
    | some r =>
      rw [hm] at h
      injection h with h
      subst h
      have hx := (matchAsset_some hm).1
      subst hx
      exact hm

/-- Assets after the first hit are ignored by the scan. -/
theorem findAsset_later_ignored {pfx : String} {a : Asset}
    (ha : (matchAsset pfx a).isSome = true) :
    ∀ (l₁ l₂ : List Asset),
      findAssetWithVersion pfx (l₁ ++ a :: l₂) = findAssetWithVersion pfx (l₁ ++ [a]) := by
  intro l₁
  induction l₁ with
  | nil =>
    intro l₂
    simp only [List.nil_append]
    rw [findAssetWithVersion, findAssetWithVersion]
    cases hm : matchAsset pfx a with
    | none => rw [hm] at ha; simp at ha
    | some r => rfl
  | cons x rest ih =>
    intro l₂
    simp only [List.cons_append]
    rw [findAssetWithVersion, findAssetWithVersion]
    cases hm : matchAsset pfx x with
    | none => exact ih l₂
    | some r => rfl

/-! ## Claim theorems -/

/-- Claim C9 (code_bug evidence): with the default configuration value
(const.py line 31, documented there as one hour in seconds), the refresh
timer period computed by the coordinator constructor (coordinator.py
line 46, which multiplies by 3600 treating the value as hours) is
12960000 seconds, not the 3600 seconds that one hour amounts to. -/
theorem c9_default_interval_bug :
    interval_seconds DEFAULT_UPDATE_INTERVAL = 12960000
    ∧ interval_seconds DEFAULT_UPDATE_INTERVAL ≠ 3600 := by decide

/-- An asset accepted by the scan although its filename fails the
anchored pattern of the claim: the version regex is unanchored on the
left of the underscore. -/
def c2Asset : Asset :=
  { name := "OpenBK7231T_extra_1.2.3.rbl"
    browser_download_url := "http://example.com/a.rbl"
    size := 7 }

/-- Claim C2 counterexample: resolveAsset returns an asset whose
filename does not match the anchored pattern caret prefix underscore
digits dot digits dot digits dot rbl dollar, because the source only
checks startswith, endswith and an unanchored regex search. -/
theorem c2_counterexample :
    resolveAsset [c2Asset] "BK7231T" = some (c2Asset, "1.2.3")
    ∧ anchoredName "OpenBK7231T" c2Asset.name = false := by decide

/-- Claim C2 as amended: resolveAsset returns at most one asset and any
returned asset has a filename that starts with the platform firmware
family part plus underscore, ends in dot-rbl and contains a match of
the unanchored version pattern (the anchored pattern of the original
claim is not guaranteed, see the counterexample); and the first asset
satisfying the conditions wins, later assets in the same snapshot being
ignored. -/
theorem c2_amended :
    (∀ (assets : List Asset) (p : String) (a : Asset) (ver : String),
      resolveAsset assets p = some (a, ver) →
      ∃ pfx, PLATFORM_FIRMWARE_MAP.lookup p = some pfx
        ∧ strStarts (pfx ++ "_") a.name = true
        ∧ strEnds ".rbl" a.name = true
        ∧ searchVersion a.name.toList = some ver.toList)
    ∧ (∀ (p pfx : String) (l₁ l₂ : List Asset) (a : Asset),
      PLATFORM_FIRMWARE_MAP.lookup p = some pfx →
      (matchAsset pfx a).isSome = true →
      resolveAsset (l₁ ++ a :: l₂) p = resolveAsset (l₁ ++ [a]) p) := by
  constructor
  · intro assets p a ver h
    unfold resolveAsset at h
    cases hl : PLATFORM_FIRMWARE_MAP.lookup p with
    | none => rw [hl] at h; exact absurd h (by simp)
    | some pfx =>
      rw [hl] at h
      have hm := matchAsset_some (findAsset_hit h)
      exact ⟨pfx, rfl, hm.2⟩
  · intro p pfx l₁ l₂ a hl ha
    unfold resolveAsset
    rw [hl]
    exact findAsset_later_ignored ha l₁ l₂

/-- A second matching asset for the same platform, used to exercise the
first-match clause of the amended claim C2. -/
def c2AssetLater : Asset :=
  { name := "OpenBK7231T_9.9.9.rbl"
    browser_download_url := "http://example.com/b.rbl"
    size := 9 }

/-- Witness for the amended claim C2 at concrete inputs: the shape part
on a one-asset snapshot and the first-match part on a snapshot carrying
a duplicate platform asset. -/
theorem c2_witness :
    (∃ pfx, PLATFORM_FIRMWARE_MAP.lookup "BK7231T" = some pfx
      ∧ strStarts (pfx ++ "_") c2AssetLater.name = true
      ∧ strEnds ".rbl" c2AssetLater.name = true
      ∧ searchVersion c2AssetLater.name.toList = some "9.9.9".toList)
    ∧ resolveAsset ([] ++ c2Asset :: [c2AssetLater]) "BK7231T"
        = resolveAsset ([] ++ [c2Asset]) "BK7231T" :=
  ⟨c2_amended.1 [c2AssetLater] "BK7231T" c2AssetLater "9.9.9" (by decide),
   c2_amended.2 "BK7231T" "OpenBK7231T" [] [c2AssetLater] c2Asset (by decide) (by decide)⟩

/-- A coordinator state after one successful fetch, used to exercise
the failure-policy claims. -/
def cachedRelease : GithubRelease :=
  { tag_name := "v1.2.3"
    assets := [{ name := "OpenBK7231T_1.2.3.rbl"
                 browser_download_url := "http://example.com/OpenBK7231T_1.2.3.rbl"
                 size := 100 }] }

def cachedInfo : FirmwareInfo :=
  { version := "1.2.3"
    download_url := "http://example.com/OpenBK7231T_1.2.3.rbl"
    filename := "OpenBK7231T_1.2.3.rbl"
    size := 100 }

def warmState : CoordinatorState :=
  { latest_release := cachedRelease
    firmware_versions := [("BK7231T", cachedInfo)]
    last_fetch_success := true }

def coldState : CoordinatorState :=
  { latest_release := { tag_name := "", assets := [] }
    firmware_versions := []
    last_fetch_success := false }

/-- The release parsed by the refresh of the claim C3 counterexample,
different from the cached one. -/
def c3NewRelease : GithubRelease :=
  { tag_name := "v1.3.0"
    assets := [{ name := "OpenBK7231T_1.3.0.rbl"
                 browser_download_url := "https://github.com/r/OpenBK7231T_1.3.0.rbl"
                 size := 120 }] }

/-- Claim C3 counterexample: a transport failure (the 30 second
ceiling expiring during CDN HEAD resolution, head function none) on a
refresh after one prior success does NOT return the last good snapshot
unchanged: self.latest_release was already assigned on coordinator.py
line 103, so the generic handler of line 175 returns the freshly
parsed release paired with the stale firmware map, and the state keeps
the mutated latest_release. No error is surfaced, but the returned
release differs from the cached one and the state has changed. -/
theorem c3_counterexample :
    refresh warmState (FetchOutcome.response 200 c3NewRelease) (fun _ => none)
      = ({ warmState with latest_release := c3NewRelease },
         Except.ok (c3NewRelease, warmState.firmware_versions))
    ∧ c3NewRelease ≠ warmState.latest_release
    ∧ ({ warmState with latest_release := c3NewRelease } : CoordinatorState) ≠ warmState :=
  ⟨rfl, by decide, by decide⟩

/-- Claim C3 as amended: on an upstream 403, an aiohttp.ClientError,
or any other failure striking before the 200 parse completes (all of
which precede any state mutation), a refresh with a previously
successful snapshot returns that snapshot unchanged, state untouched,
with no error, and with no prior success propagates a hard failure.
But when the 30 second ceiling expires during CDN HEAD resolution
after a 200 parse, the refresh instead returns the freshly parsed
release paired with the stale firmware map (or, cold, a hard failure),
and latest_release stays mutated in the state; only the firmware map
and the success flag are preserved. -/
theorem c3_amended :
    ∀ (st : CoordinatorState) (rel : GithubRelease) (head : String → Option HeadOutcome),
      (st.last_fetch_success = true →
        refresh st (FetchOutcome.response 403 rel) head
          = (st, Except.ok (st.latest_release, st.firmware_versions))
        ∧ refresh st FetchOutcome.transportError head
          = (st, Except.ok (st.latest_release, st.firmware_versions))
        ∧ refresh st FetchOutcome.unexpectedError head
          = (st, Except.ok (st.latest_release, st.firmware_versions)))
      ∧ (st.last_fetch_success = false →
        refresh st (FetchOutcome.response 403 rel) head = (st, Except.error ())
        ∧ refresh st FetchOutcome.transportError head = (st, Except.error ())
        ∧ refresh st FetchOutcome.unexpectedError head = (st, Except.error ()))
      ∧ (processAssets rel.assets head = none →
        refresh st (FetchOutcome.response 200 rel) head
          = ({ st with latest_release := rel },
             if st.last_fetch_success = true then
               Except.ok (rel, st.firmware_versions)
             else Except.error ())) := by
  intro st rel head
  refine ⟨fun h => ⟨?_, ?_, ?_⟩, fun h => ⟨?_, ?_, ?_⟩, fun hpa => ?_⟩ <;>
    simp [refresh, cachedOrFail, *]

/-- Witness for the amended claim C3: scenario E concretely (a 403 on
the refresh after one prior success serves the first snapshot with no
error), a hard failure on a cold cache, and the mid-loop timeout case
on a warm cache. -/
theorem c3_witness :
    (refresh warmState (FetchOutcome.response 403 c3NewRelease) (fun _ => none)
        = (warmState, Except.ok (warmState.latest_release, warmState.firmware_versions))
      ∧ refresh warmState FetchOutcome.transportError (fun _ => none)
        = (warmState, Except.ok (warmState.latest_release, warmState.firmware_versions))
      ∧ refresh warmState FetchOutcome.unexpectedError (fun _ => none)
        = (warmState, Except.ok (warmState.latest_release, warmState.firmware_versions)))
    ∧ (refresh coldState (FetchOutcome.response 403 c3NewRelease) (fun _ => none)
        = (coldState, Except.error ())
      ∧ refresh coldState FetchOutcome.transportError (fun _ => none)
        = (coldState, Except.error ())
      ∧ refresh coldState FetchOutcome.unexpectedError (fun _ => none)
        = (coldState, Except.error ()))
    ∧ refresh warmState (FetchOutcome.response 200 c3NewRelease) (fun _ => none)
        = ({ warmState with latest_release := c3NewRelease },
           if warmState.last_fetch_success = true then
             Except.ok (c3NewRelease, warmState.firmware_versions)
           else Except.error ()) :=
  ⟨(c3_amended warmState c3NewRelease (fun _ => none)).1 rfl,
   (c3_amended coldState c3NewRelease (fun _ => none)).2.1 rfl,
   (c3_amended warmState c3NewRelease (fun _ => none)).2.2 (by decide)⟩

/-- A state distinct from warmState, for the claim C4 refutation. -/
def warmState500 : CoordinatorState :=
  { latest_release := cachedRelease
    firmware_versions := [("BK7231T", cachedInfo)]
    last_fetch_success := true }

/-- Claim C4 counterexample: an HTTP 500 response on a refresh after a
prior success does not surface a failure; the raise UpdateFailed of
coordinator.py line 98 is caught by the except Exception handler on
line 175, which returns the cached data. -/
theorem c4_counterexample :
    refresh warmState500 (FetchOutcome.response 500 cachedRelease) (fun _ => some HeadOutcome.raised)
      = (warmState500, Except.ok (warmState500.latest_release, warmState500.firmware_versions))
    ∧ (500 : Nat) ≠ 200 ∧ (500 : Nat) ≠ 403 := ⟨rfl, by decide, by decide⟩

/-- Claim C4 as amended: a response status that is neither 200 nor 403
surfaces a failure only when no fetch has ever succeeded; once a
previous snapshot exists, the raised failure is swallowed by the
generic exception handler and the cached snapshot is returned, the
state staying unchanged in both cases. -/
theorem c4_amended :
    ∀ (st : CoordinatorState) (code : Nat) (rel : GithubRelease)
      (head : String → Option HeadOutcome),
      code ≠ 200 → code ≠ 403 →
      refresh st (FetchOutcome.response code rel) head
        = (st, if st.last_fetch_success = true then
                 Except.ok (st.latest_release, st.firmware_versions)
               else Except.error ()) := by
  intro st code rel head h200 h403
  simp [refresh, cachedOrFail, h200, h403]

/-- Witness for the amended claim C4 at a concrete 500 status on a cold
cache, where the failure does surface. -/
theorem c4_witness :
    refresh coldState (FetchOutcome.response 500 cachedRelease) (fun _ => some HeadOutcome.raised)
      = (coldState, if coldState.last_fetch_success = true then
                      Except.ok (coldState.latest_release, coldState.firmware_versions)
                    else Except.error ()) :=
  c4_amended coldState 500 cachedRelease (fun _ => some HeadOutcome.raised) (by decide) (by decide)

/-- The release of the claim C7 counterexample: one matching asset
whose browser URL redirects to a CDN host other than the GitHub
objects host. -/
def c7Release : GithubRelease :=
  { tag_name := "v1.2.3"
    assets := [{ name := "OpenBK7231T_1.2.3.rbl"
                 browser_download_url := "https://github.com/r/OpenBK7231T_1.2.3.rbl"
                 size := 100 }] }

def c7Head : String → Option HeadOutcome := fun _ => some (HeadOutcome.ok 302 "https://cdn.example.com/fw.rbl")

def c7ColdState : CoordinatorState :=
  { latest_release := { tag_name := "", assets := [] }
    firmware_versions := []
    last_fetch_success := false }

/-- Claim C7 counterexample: a successful refresh whose asset resolves
through a 302 redirect to a host other than objects.githubusercontent.com
records the redirect target verbatim, still beginning with https; the
downgrade of coordinator.py line 128 only applies to the GitHub objects
host (and, on line 142, to the fallback after a failed HEAD). -/
theorem c7_counterexample :
    (refresh c7ColdState (FetchOutcome.response 200 c7Release) c7Head).1.firmware_versions.lookup "BK7231T"
      = some { version := "1.2.3"
               download_url := "https://cdn.example.com/fw.rbl"
               filename := "OpenBK7231T_1.2.3.rbl"
               size := 100 }
    ∧ strStarts "https://" "https://cdn.example.com/fw.rbl" = true := by decide

/-- Claim C7 as amended: the https downgrade is applied exactly when
the redirect target contains the GitHub objects host, or when redirect
resolution fails and the original URL starts with https; a non-redirect
response and a redirect to any other host are recorded verbatim.
Whenever the downgrade applies to a URL starting with https, the
recorded URL starts with http. -/
theorem c7_amended :
    ∀ (u loc : String) (code : Nat),
      (resolveDownloadUrl u (HeadOutcome.ok code loc)
        = (if (isRedirectCode code && !(loc = "")) = true then
             (if containsSub objectsHost.toList loc.toList = true then replaceHttpsOnce loc
              else loc)
           else u))
      ∧ (resolveDownloadUrl u HeadOutcome.raised
        = (if strStarts "https://" u = true then replaceHttpsOnce u else u))
      ∧ (strStarts "https://" loc = true →
          strStarts "http://" (replaceHttpsOnce loc) = true) := by
  intro u loc code
  refine ⟨?_, rfl, fun h => replaceHttps_of_https h⟩
  by_cases hr : isRedirectCode code = true
  · by_cases hl : loc = ""
    · subst hl; simp [resolveDownloadUrl, hr]
    · simp [resolveDownloadUrl, hr, hl]
  · simp [resolveDownloadUrl, hr]

/-- Witness for the amended claim C7 at concrete inputs: the GitHub
objects host is downgraded and starts with http afterwards. -/
theorem c7_witness :
    (resolveDownloadUrl "https://github.com/x"
        (HeadOutcome.ok 302 "https://objects.githubusercontent.com/a.rbl")
      = (if (isRedirectCode 302 && !(("https://objects.githubusercontent.com/a.rbl" : String) = "")) = true then
           (if containsSub objectsHost.toList "https://objects.githubusercontent.com/a.rbl".toList = true then
              replaceHttpsOnce "https://objects.githubusercontent.com/a.rbl"
            else "https://objects.githubusercontent.com/a.rbl")
         else "https://github.com/x"))
    ∧ strStarts "http://" (replaceHttpsOnce "https://objects.githubusercontent.com/a.rbl") = true :=
  ⟨(c7_amended "https://github.com/x" "https://objects.githubusercontent.com/a.rbl" 302).1,
   (c7_amended "https://github.com/x" "https://objects.githubusercontent.com/a.rbl" 302).2.2 (by decide)⟩

/-! ## Device record lemmas -/

/-- The invariant of claim C5. -/
def DeviceInv (r : DeviceRecord) : Prop :=
  r.installing = false → r.target_version = none

/-- Outcome of the shared try body plus except clause: when any step
raised, the result is a re-raise and the record has its install state
cleared; otherwise the workflow completes still Installing with
progress 60, the other fields untouched either way. -/
theorem finishWorkflow_cases (r : DeviceRecord) (t : String) (steps : InstallSteps) :
    (finishWorkflow (runTryBody (installEnter r t) steps)
        = (clearInstallState { installEnter r t with install_progress := 5 }, InstallResult.raised)
      ∨ finishWorkflow (runTryBody (installEnter r t) steps)
        = (clearInstallState { installEnter r t with install_progress := 45 }, InstallResult.raised)
      ∨ finishWorkflow (runTryBody (installEnter r t) steps)
        = (clearInstallState { installEnter r t with install_progress := 50 }, InstallResult.raised)
      ∨ finishWorkflow (runTryBody (installEnter r t) steps)
        = ({ installEnter r t with install_progress := 60 }, InstallResult.completed)) := by
  unfold finishWorkflow runTryBody
  by_cases hd : steps.download = StepResult.raised
  · left; simp [hd]
  · by_cases hw : steps.write = StepResult.raised
    · right; left; simp [hd, hw]
    · by_cases hp : steps.publish = StepResult.raised
      · right; right; left; simp [hd, hw, hp]
      · right; right; right; simp [hd, hw, hp]

/-- When some step raised, the body cannot complete, so the whole
workflow tail re-raises with the install state cleared. -/
theorem finishWorkflow_raised (r : DeviceRecord) (t : String) (steps : InstallSteps)
    (h : steps.download = StepResult.raised ∨ steps.write = StepResult.raised
         ∨ steps.publish = StepResult.raised) :
    (finishWorkflow (runTryBody (installEnter r t) steps)).2 = InstallResult.raised
    ∧ (finishWorkflow (runTryBody (installEnter r t) steps)).1.installing = false
    ∧ (finishWorkflow (runTryBody (installEnter r t) steps)).1.install_progress = 0
    ∧ (finishWorkflow (runTryBody (installEnter r t) steps)).1.target_version = none
    ∧ (finishWorkflow (runTryBody (installEnter r t) steps)).1.previous_version
        = r.previous_version
    ∧ (finishWorkflow (runTryBody (installEnter r t) steps)).1.backup_available
        = r.backup_available
    ∧ (finishWorkflow (runTryBody (installEnter r t) steps)).1.current_version
        = r.current_version := by
  unfold finishWorkflow runTryBody installEnter clearInstallState
  rcases h with hd | hw | hp
  · simp [hd]
  · by_cases hd : steps.download = StepResult.raised <;> simp [hd, hw]
  · by_cases hd : steps.download = StepResult.raised
    · simp [hd]
    · by_cases hw : steps.write = StepResult.raised <;> simp [hd, hw, hp]

/-- Whatever the outcome, the workflow tail keeps the invariant of
claim C5: the completed state is Installing, the raised state has the
target cleared together with the flag. -/
theorem finishWorkflow_inv (r : DeviceRecord) (t : String) (steps : InstallSteps) :
    DeviceInv (finishWorkflow (runTryBody (installEnter r t) steps)).1 := by
  rcases finishWorkflow_cases r t steps with h | h | h | h <;>
    rw [h] <;> intro hf <;> first
      | rfl
      | exact absurd hf (by simp [installEnter])

/-! ## Claim theorems on the device record -/

/-- Claim C5: every operation of the record preserves the invariant
that a non-installing record carries no target version; construction
establishes it, entering Installing, processing a status report, and
each of the three workflows (in particular their failure handlers)
preserve it. -/
theorem c5_invariant :
    (∀ d p v, DeviceInv (initRecord d p v))
    ∧ (∀ r t, DeviceInv (installEnter r t))
    ∧ (∀ r v, DeviceInv r → DeviceInv (update_current_version r v).1)
    ∧ (∀ r fw pf steps, DeviceInv r → DeviceInv (async_install r fw pf steps).1)
    ∧ (∀ r fp steps, DeviceInv r → DeviceInv (async_rollback_firmware r fp steps).1)
    ∧ (∀ r ver fv pf steps, DeviceInv r →
        DeviceInv (async_install_specific_version r ver fv pf steps).1) := by
  refine ⟨fun d p v => ?_, fun r t => ?_, fun r v h => ?_, fun r fw pf steps h => ?_,
          fun r fp steps h => ?_, fun r ver fv pf steps h => ?_⟩
  · intro _; rfl
  · intro hf; exact absurd hf (by simp [installEnter])
  · unfold update_current_version
    by_cases he : r.current_version = v
    · rw [if_pos he]; exact h
    · rw [if_neg he]
      by_cases hsucc : (({ r with current_version := v } : DeviceRecord).installing
          && optTruthy ({ r with current_version := v } : DeviceRecord).target_version
          && decide (({ r with current_version := v } : DeviceRecord).target_version = some v)) = true
      · rw [if_pos hsucc]; intro _; rfl
      · rw [if_neg hsucc]
        by_cases hinst : ({ r with current_version := v } : DeviceRecord).installing = true
        · rw [if_pos hinst]; intro _; rfl
        · rw [if_neg hinst]; exact h
  · cases fw with
    | none => exact h
    | some fi =>
      by_cases hg : (fi.download_url = "" || fi.filename = "" || fi.version = "") = true
      · simp only [async_install, if_pos hg]; exact h
      · simp only [async_install, if_neg hg]; exact finishWorkflow_inv _ _ _
  · cases hpv : r.previous_version with
    | none => simp only [async_rollback_firmware, hpv]; exact h
    | some pv =>
      by_cases h1 : pv = ""
      · simp only [async_rollback_firmware, hpv, if_pos h1]; exact h
      · by_cases h2 : r.backup_available = false
        · simp only [async_rollback_firmware, hpv, if_neg h1, if_pos h2]; exact h
        · cases fp with
          | none => simp only [async_rollback_firmware, hpv, if_neg h1, if_neg h2]; exact h
          | some fi =>
            by_cases h3 : (fi.download_url = "" || fi.filename = "") = true
            · simp only [async_rollback_firmware, hpv, if_neg h1, if_neg h2, if_pos h3]; exact h
            · simp only [async_rollback_firmware, hpv, if_neg h1, if_neg h2, if_neg h3]
              exact finishWorkflow_inv _ _ _
  · cases fv with
    | none => exact h
    | some fi =>
      by_cases h3 : (fi.download_url = "" || fi.filename = "") = true
      · simp only [async_install_specific_version, if_pos h3]; exact h
      · simp only [async_install_specific_version, if_neg h3]
        exact finishWorkflow_inv _ _ _

/-- Witness for claim C5: a freshly discovered record satisfies the
invariant, and still does after a status report. -/
theorem c5_witness :
    DeviceInv (update_current_version (initRecord "dev1" "BK7231T" "1.0.0") "1.0.1").1 :=
  c5_invariant.2.2.1 (initRecord "dev1" "BK7231T" "1.0.0") "1.0.1"
    (c5_invariant.1 "dev1" "BK7231T" "1.0.0")

/-- Claim C6: for each of the three workflows, when the guards pass and
any of the download, write or publish steps raises, the device record
is left Idle (installing false, progress 0, target cleared) and the
exception is re-raised to the caller. -/
theorem c6_abort_to_idle :
    (∀ (r : DeviceRecord) (fi : FirmwareInfo) (pf : Bool) (steps : InstallSteps),
      ¬(fi.download_url = "") → ¬(fi.filename = "") → ¬(fi.version = "") →
      (steps.download = StepResult.raised ∨ steps.write = StepResult.raised
        ∨ steps.publish = StepResult.raised) →
      (async_install r (some fi) pf steps).2 = InstallResult.raised
      ∧ (async_install r (some fi) pf steps).1.installing = false
      ∧ (async_install r (some fi) pf steps).1.install_progress = 0
      ∧ (async_install r (some fi) pf steps).1.target_version = none)
    ∧ (∀ (r : DeviceRecord) (pv : String) (fi : FirmwareInfo) (steps : InstallSteps),
      r.previous_version = some pv → ¬(pv = "") → r.backup_available = true →
      ¬(fi.download_url = "") → ¬(fi.filename = "") →
      (steps.download = StepResult.raised ∨ steps.write = StepResult.raised
        ∨ steps.publish = StepResult.raised) →
      (async_rollback_firmware r (some fi) steps).2 = InstallResult.raised
      ∧ (async_rollback_firmware r (some fi) steps).1.installing = false
      ∧ (async_rollback_firmware r (some fi) steps).1.install_progress = 0
      ∧ (async_rollback_firmware r (some fi) steps).1.target_version = none)
    ∧ (∀ (r : DeviceRecord) (ver : String) (fi : FirmwareInfo) (pf : Bool)
        (steps : InstallSteps),
      ¬(fi.download_url = "") → ¬(fi.filename = "") →
      (steps.download = StepResult.raised ∨ steps.write = StepResult.raised
        ∨ steps.publish = StepResult.raised) →
      (async_install_specific_version r ver (some fi) pf steps).2 = InstallResult.raised
      ∧ (async_install_specific_version r ver (some fi) pf steps).1.installing = false
      ∧ (async_install_specific_version r ver (some fi) pf steps).1.install_progress = 0
      ∧ (async_install_specific_version r ver (some fi) pf steps).1.target_version = none) := by
  refine ⟨fun r fi pf steps h1 h2 h3 hra => ?_, fun r pv fi steps hpv h1 hb h2 h3 hra => ?_,
          fun r ver fi pf steps h1 h2 hra => ?_⟩
  · have hg : ¬((fi.download_url = "" || fi.filename = "" || fi.version = "") = true) := by
      simp [h1, h2, h3]
    refine ⟨?_, ?_, ?_, ?_⟩ <;> simp only [async_install, if_neg hg]
    · exact (finishWorkflow_raised _ fi.version steps hra).1
    · exact (finishWorkflow_raised _ fi.version steps hra).2.1
    · exact (finishWorkflow_raised _ fi.version steps hra).2.2.1
    · exact (finishWorkflow_raised _ fi.version steps hra).2.2.2.1
  · have hbb : ¬(r.backup_available = false) := by simp [hb]
    have hg : ¬((fi.download_url = "" || fi.filename = "") = true) := by simp [h2, h3]
    refine ⟨?_, ?_, ?_, ?_⟩ <;>
      simp only [async_rollback_firmware, hpv, if_neg h1, if_neg hbb, if_neg hg]
    · exact (finishWorkflow_raised _ pv steps hra).1
    · exact (finishWorkflow_raised _ pv steps hra).2.1
    · exact (finishWorkflow_raised _ pv steps hra).2.2.1
    · exact (finishWorkflow_raised _ pv steps hra).2.2.2.1
  · have hg : ¬((fi.download_url = "" || fi.filename = "") = true) := by simp [h1, h2]
    refine ⟨?_, ?_, ?_, ?_⟩ <;> simp only [async_install_specific_version, if_neg hg]
    · exact (finishWorkflow_raised _ ver steps hra).1
    · exact (finishWorkflow_raised _ ver steps hra).2.1
    · exact (finishWorkflow_raised _ ver steps hra).2.2.1
    · exact (finishWorkflow_raised _ ver steps hra).2.2.2.1

/-- A record mid-fleet used to exercise the failure claims. -/
def c6Record : DeviceRecord :=
  { device_id := "dev6"
    platform := "BK7231N"
    current_version := "1.1.0"
    installing := false
    install_progress := 0
    target_version := none
    previous_version := some "1.0.0"
    backup_available := true }

def c6Firmware : FirmwareInfo :=
  { version := "1.2.0"
    download_url := "http://example.com/OpenBK7231N_1.2.0.rbl"
    filename := "OpenBK7231N_1.2.0.rbl"
    size := 64 }

def c6FailSteps : InstallSteps :=
  { download := StepResult.raised
    write := StepResult.success
    publish := StepResult.success }

/-- Witness for claim C6: a concrete failed download during each of the
three workflows aborts the record to Idle and re-raises. -/
theorem c6_witness :
    ((async_install c6Record (some c6Firmware) true c6FailSteps).2 = InstallResult.raised
      ∧ (async_install c6Record (some c6Firmware) true c6FailSteps).1.installing = false
      ∧ (async_install c6Record (some c6Firmware) true c6FailSteps).1.install_progress = 0
      ∧ (async_install c6Record (some c6Firmware) true c6FailSteps).1.target_version = none)
    ∧ ((async_rollback_firmware c6Record (some c6Firmware) c6FailSteps).2 = InstallResult.raised
      ∧ (async_rollback_firmware c6Record (some c6Firmware) c6FailSteps).1.installing = false
      ∧ (async_rollback_firmware c6Record (some c6Firmware) c6FailSteps).1.install_progress = 0
      ∧ (async_rollback_firmware c6Record (some c6Firmware) c6FailSteps).1.target_version = none)
    ∧ ((async_install_specific_version c6Record "1.2.0" (some c6Firmware) true c6FailSteps).2
          = InstallResult.raised
      ∧ (async_install_specific_version c6Record "1.2.0" (some c6Firmware) true c6FailSteps).1.installing
          = false
      ∧ (async_install_specific_version c6Record "1.2.0" (some c6Firmware) true c6FailSteps).1.install_progress
          = 0
      ∧ (async_install_specific_version c6Record "1.2.0" (some c6Firmware) true c6FailSteps).1.target_version
          = none) :=
  ⟨c6_abort_to_idle.1 c6Record c6Firmware true c6FailSteps (by decide) (by decide) (by decide)
      (Or.inl rfl),
   c6_abort_to_idle.2.1 c6Record "1.0.0" c6Firmware c6FailSteps rfl (by decide) rfl (by decide)
      (by decide) (Or.inl rfl),
   c6_abort_to_idle.2.2 c6Record "1.2.0" c6Firmware true c6FailSteps (by decide) (by decide)
      (Or.inl rfl)⟩

/-- A freshly discovered device used for the claim C1 refutation. -/
def c1Record : DeviceRecord := initRecord "dev1" "BK7231T" "1.2.3"

def c1Firmware : FirmwareInfo :=
  { version := "1.3.0"
    download_url := "http://192.168.1.10:8123/OpenBK7231T_1.3.0.rbl"
    filename := "OpenBK7231T_1.3.0.rbl"
    size := 4 }

def allStepsOk : InstallSteps :=
  { download := StepResult.success
    write := StepResult.success
    publish := StepResult.success }

/-- The record reached by triggering an install of 1.3.0 on a device
running 1.2.3: Installing with target 1.3.0, progress 60. -/
def c1Installing : DeviceRecord :=
  (async_install c1Record (some c1Firmware) true allStepsOk).1

/-- Claim C1 counterexample: the record is Installing with target
1.3.0, and a status report of 1.2.3 (a stale report of the old running
version, which differs from the target) leaves the record completely
unchanged, still Installing, with no mismatch warning: the source only
reacts to reports that differ from the recorded current version. -/
theorem c1_counterexample :
    c1Installing.installing = true
    ∧ c1Installing.target_version = some "1.3.0"
    ∧ c1Installing.current_version = "1.2.3"
    ∧ ("1.2.3" : String) ≠ "1.3.0"
    ∧ update_current_version c1Installing "1.2.3" = (c1Installing, UpdateLog.noLog) := by
  decide

/-- Claim C1 as amended: while Installing, a status report whose
version differs from the recorded current version and does not equal
the target transitions the record to Idle with the mismatch warning; a
report equal to the recorded current version is ignored even while
Installing, so the first report after triggering is authoritative only
when it differs from the last recorded version. -/
theorem c1_amended (r : DeviceRecord) (v : String)
    (hinst : r.installing = true) (hne : ¬(r.current_version = v))
    (hnt : ¬(r.target_version = some v)) :
    update_current_version r v
      = (clearInstallState { r with current_version := v }, UpdateLog.versionMismatch)
    ∧ clearInstallState { r with current_version := v } = { r with current_version := v, installing := false, install_progress := 0, target_version := none } := by
  refine ⟨?_, rfl⟩
  unfold update_current_version
  rw [if_neg hne]
  have hcond : ¬((({ r with current_version := v } : DeviceRecord).installing
      && optTruthy ({ r with current_version := v } : DeviceRecord).target_version
      && decide (({ r with current_version := v } : DeviceRecord).target_version = some v)) = true) := by
    simp only [Bool.and_eq_true, decide_eq_true_eq]
    intro hc
    exact hnt hc.2
  rw [if_neg hcond, if_pos (show ({ r with current_version := v } : DeviceRecord).installing = true from hinst)]

/-- Witness for the amended claim C1, scenario D concretely: while
installing 1.3.0 the device reports 1.2.9, and the record transitions
to Idle with the mismatch warning and the target cleared. -/
theorem c1_witness :
    update_current_version c1Installing "1.2.9"
      = (clearInstallState { c1Installing with current_version := "1.2.9" }, UpdateLog.versionMismatch)
    ∧ clearInstallState { c1Installing with current_version := "1.2.9" } = { c1Installing with current_version := "1.2.9", installing := false, install_progress := 0, target_version := none } :=
  c1_amended c1Installing "1.2.9" (by decide) (by decide) (by decide)

/-- Claim C10: in the install-latest workflow with a non-empty current
version, previous_version and backup_available are overwritten during
the backup phase, which leaves the installing flag untouched (the
Installing state is entered only afterwards, async_install being the
composition of the backup phase, the Installing entry and the try
body); and when the attempt then fails, the reverted Idle record still
carries the values captured for the failed attempt, whatever the
pre-call values were. -/
theorem c10_backup_overwrite (r : DeviceRecord) (fi : FirmwareInfo) (pf : Bool)
    (steps : InstallSteps)
    (hcv : ¬(r.current_version = ""))
    (h1 : ¬(fi.download_url = "")) (h2 : ¬(fi.filename = "")) (h3 : ¬(fi.version = ""))
    (hra : steps.download = StepResult.raised ∨ steps.write = StepResult.raised
           ∨ steps.publish = StepResult.raised) :
    (installBackupPhase r pf).previous_version = some r.current_version
    ∧ (installBackupPhase r pf).backup_available = pf
    ∧ (installBackupPhase r pf).installing = r.installing
    ∧ (async_install r (some fi) pf steps).2 = InstallResult.raised
    ∧ (async_install r (some fi) pf steps).1.previous_version = some r.current_version
    ∧ (async_install r (some fi) pf steps).1.backup_available = pf
    ∧ (async_install r (some fi) pf steps).1.installing = false
    ∧ (async_install r (some fi) pf steps).1.install_progress = 0
    ∧ (async_install r (some fi) pf steps).1.target_version = none := by
  have hbp : installBackupPhase r pf
      = { r with previous_version := some r.current_version, backup_available := pf } := by
    unfold installBackupPhase
    rw [if_neg hcv]
  have hg : ¬((fi.download_url = "" || fi.filename = "" || fi.version = "") = true) := by
    simp [h1, h2, h3]
  have hf := finishWorkflow_raised (installBackupPhase r pf) fi.version steps hra
  refine ⟨?_, ?_, ?_, ?_, ?_, ?_, ?_, ?_, ?_⟩
  · rw [hbp]
  · rw [hbp]
  · rw [hbp]
  · simp only [async_install, if_neg hg]; exact hf.1
  · simp only [async_install, if_neg hg]
    rw [hf.2.2.2.2.1, hbp]
  · simp only [async_install, if_neg hg]
    rw [hf.2.2.2.2.2.1, hbp]
  · simp only [async_install, if_neg hg]; exact hf.2.1
  · simp only [async_install, if_neg hg]; exact hf.2.2.1
  · simp only [async_install, if_neg hg]; exact hf.2.2.2.1

/-- A record with stale backup bookkeeping from an older attempt, for
the claim C10 witness. -/
def c10Record : DeviceRecord :=
  { device_id := "dev10"
    platform := "BK7231T"
    current_version := "1.2.3"
    installing := false
    install_progress := 0
    target_version := none
    previous_version := some "1.0.0"
    backup_available := false }

/-- Witness for claim C10: a failed install-latest attempt on a device
with older backup bookkeeping leaves the captured values of the failed
attempt in place (previous_version 1.2.3 and backup_available true,
not the pre-call 1.0.0 and false) while the record reverts to Idle. -/
theorem c10_witness :
    (installBackupPhase c10Record true).previous_version = some c10Record.current_version
    ∧ (installBackupPhase c10Record true).backup_available = true
    ∧ (installBackupPhase c10Record true).installing = c10Record.installing
    ∧ (async_install c10Record (some c1Firmware) true c6FailSteps).2 = InstallResult.raised
    ∧ (async_install c10Record (some c1Firmware) true c6FailSteps).1.previous_version
        = some c10Record.current_version
    ∧ (async_install c10Record (some c1Firmware) true c6FailSteps).1.backup_available = true
    ∧ (async_install c10Record (some c1Firmware) true c6FailSteps).1.installing = false
    ∧ (async_install c10Record (some c1Firmware) true c6FailSteps).1.install_progress = 0
    ∧ (async_install c10Record (some c1Firmware) true c6FailSteps).1.target_version = none :=
  c10_backup_overwrite c10Record c1Firmware true c6FailSteps (by decide) (by decide)
    (by decide) (by decide) (Or.inl rfl)

/-! ## Status ingest lemmas -/

/-- When the OpenBK label is not a leading part of the list, removal
skips the head character. -/
theorem removeOpenBK_cons (c : Char) (cs : List Char)
    (h : openBK.isPrefixOf (c :: cs) = false) :
    removeOpenBK (c :: cs) = c :: removeOpenBK cs := by
  rw [removeOpenBK.eq_def]
  split
  · next x rest heq =>
    injection heq with hc hcs
    subst hc
    subst hcs
    simp [openBK, List.isPrefixOf] at h
  · next x c2 cs2 hside heq =>
    injection heq with hc hcs
    subst hc
    subst hcs
    rfl
  · next x heq => exact absurd heq (by simp)

/-- Removal eats a leading OpenBK occurrence whole. -/
theorem removeOpenBK_lead (sfx : List Char) :
    removeOpenBK (openBK ++ sfx) = removeOpenBK sfx := rfl

/-- A list without any OpenBK occurrence is left unchanged. -/
theorem removeOpenBK_of_not_contains :
    ∀ (l : List Char), containsSub openBK l = false → removeOpenBK l = l := by
  intro l
  induction l with
  | nil => intro _; rfl
  | cons c cs ih =>
    intro h
    rw [containsSub] at h
    have h1 : openBK.isPrefixOf (c :: cs) = false := by
      cases hq : openBK.isPrefixOf (c :: cs) with
      | false => rfl
      | true => rw [hq] at h; simp at h
    have h2 : containsSub openBK cs = false := by
      cases hq : containsSub openBK cs with
      | false => rfl
      | true => rw [hq] at h; simp at h
    rw [removeOpenBK_cons c cs h1, ih h2]

/-! ## Claim C8 -/

/-- Claim C8 counterexample: a first payload token of the form OpenBK
followed by the suffix OpenBK7231T yields the platform BK7231T, not
BKOpenBK7231T as the claim requires, because the source removes every
occurrence of OpenBK from the token rather than only the leading one. -/
theorem c8_counterexample :
    mqttParseBuild "dev1/build" "OpenBKOpenBK7231T 2.0.0"
      = some { device_id := "dev1", platform := "BK7231T", version := "2.0.0" }
    ∧ ("BK7231T" : String) ≠ "BKOpenBK7231T" := by decide

/-- Claim C8 as amended: for a two-segment topic ending in build and a
payload of at least two whitespace tokens whose first token is OpenBK
followed by a suffix containing no further OpenBK occurrence, parsing
yields the first topic segment as device id, BK prepended to the suffix
as platform and the second token verbatim as version, and an empty
registry gains exactly the corresponding freshly constructed record
(on a suffix containing OpenBK the code removes the extra occurrences
too, see the counterexample). -/
theorem c8_amended (topic payload : String) (did sfx ver : List Char)
    (rest : List (List Char))
    (h1 : splitSlash topic.toList = [did, "build".toList])
    (h2 : splitWs (stripWs payload.toList) = (openBK ++ sfx) :: ver :: rest)
    (h3 : containsSub openBK sfx = false) :
    mqttParseBuild topic payload
      = some { device_id := String.mk did
               platform := String.mk ('B' :: 'K' :: sfx)
               version := String.mk ver }
    ∧ mqtt_message_received [] topic payload
      = [("openbk_firmware_checker_" ++ String.mk did,
          initRecord (String.mk did) (String.mk ('B' :: 'K' :: sfx)) (String.mk ver))] := by
  have hbody : ¬(stripWs payload.toList = []) := by
    intro hb
    rw [hb] at h2
    simp [splitWs, splitWsAux] at h2
  have hparse : mqttParseBuild topic payload
      = some { device_id := String.mk did
               platform := String.mk ('B' :: 'K' :: sfx)
               version := String.mk ver } := by
    simp only [mqttParseBuild, h1, hbody, h2, if_true, if_false,
      removeOpenBK_lead, removeOpenBK_of_not_contains sfx h3, if_neg hbody]
  refine ⟨hparse, ?_⟩
  simp only [mqtt_message_received, hparse, List.lookup]

/-- Witness for the amended claim C8, scenario B concretely: topic
kitchen-plug slash build with payload OpenBK7231T 1.2.3 parses to the
platform BK7231T and version 1.2.3 and creates exactly that record. -/
theorem c8_witness :
    mqttParseBuild "kitchen-plug/build" "OpenBK7231T 1.2.3"
      = some { device_id := String.mk "kitchen-plug".toList
               platform := String.mk ('B' :: 'K' :: "7231T".toList)
               version := String.mk "1.2.3".toList }
    ∧ mqtt_message_received [] "kitchen-plug/build" "OpenBK7231T 1.2.3"
      = [("openbk_firmware_checker_" ++ String.mk "kitchen-plug".toList,
          initRecord (String.mk "kitchen-plug".toList)
            (String.mk ('B' :: 'K' :: "7231T".toList)) (String.mk "1.2.3".toList))] :=
  c8_amended "kitchen-plug/build" "OpenBK7231T 1.2.3" "kitchen-plug".toList
    "7231T".toList "1.2.3".toList [] (by decide) (by decide) (by decide)

end OpenBK
